import Mathlib

/-!
# Verification of the poke-mcp battle engine (`src/server.py`)

Shallow embedding of the battle simulation engine: the type-effectiveness
table, the damage calculator, the status engine, the turn-order resolver and
the battle loop, together with the post-fetch logic of the two tool
operations `get_pokemon_info` and `simulate_battle`.

Conventions of the embedding:
* Python float values are modelled exactly by fractions `Frac`
  (numerator/denominator, not kept reduced); every float value arising in
  the engine — move powers, stats, the multipliers 0, 0.5, 1, 2, and the
  damage formula's intermediate values — is exactly representable, and all
  operations used (`*`, `/`, `+`, `<`, `int(...)`) are exact value
  operations on fractions.  The probability thresholds `0.2` and `0.25`
  are taken at their decimal values.
* Python `int(x)` (truncation toward zero) is `pytrunc`; Python `//`
  (floor division) on possibly negative ints is `Int.fdiv`.
* Python's `ZeroDivisionError` (division by a zero defense stat) is
  modelled by an `Option` result of `calculate_damage`: `none` = raised.
* `random.random()` draws are an explicit stream `draws : ℕ → Frac`
  consumed in program order through an index threaded through the loop
  state; a draw is consumed exactly where the Python code calls
  `random.random()` (in particular, short-circuit evaluation of
  `first_status == STATUS_PARALYSIS and random.random() < 0.25` consumes a
  draw only when the side is paralyzed).
* Python dict construction from key/value pairs followed by `.get(k, d)` is
  `pyGet` (last occurrence of a key wins, as in Python).
-/

/-- An exact fraction `num / den`, not kept in lowest terms: the model of a
Python float value.  All denominators arising in the engine are positive. -/
structure Frac where
  num : ℤ
  den : ℕ
  deriving DecidableEq, Repr

/-- Embedding of a non-negative integer into `Frac` (Python int-to-float
promotion). -/
def Frac.ofNat (n : ℕ) : Frac := ⟨n, 1⟩

/-- Float multiplication. -/
def Frac.mul (a b : Frac) : Frac := ⟨a.num * b.num, a.den * b.den⟩

/-- Float multiplication by a non-negative integer. -/
def Frac.mulN (a : Frac) (n : ℕ) : Frac := a.mul (Frac.ofNat n)

/-- Float addition. -/
def Frac.add (a b : Frac) : Frac :=
  ⟨a.num * b.den + b.num * a.den, a.den * b.den⟩

/-- Float (true) division by a positive integer. -/
def Frac.divN (a : Frac) (n : ℕ) : Frac := ⟨a.num, a.den * n⟩

/-- Float strict comparison `a < b`, by cross-multiplication (exact for
positive denominators). -/
def Frac.blt (a b : Frac) : Bool :=
  decide (a.num * (b.den : ℤ) < b.num * (a.den : ℤ))

instance : One Frac := ⟨⟨1, 1⟩⟩

/-- Python truncation toward zero, `int(q)` on a float: truncating division
of numerator by denominator. -/
def pytrunc (q : Frac) : ℤ := q.num.tdiv q.den

/-- `dict(pairs).get(k, d)`: Python dict construction keeps the last
occurrence of a duplicated key, so we look the key up from the right. -/
def pyGet {α : Type} (l : List (String × α)) (k : String) (d : α) : α :=
  (List.lookup k l.reverse).getD d

/-- `sub.isPrefixOf text` on character lists, written out. -/
def matchAt : List Char → List Char → Bool
  | [], _ => true
  | _ :: _, [] => false
  | c :: cs, d :: ds => c == d && matchAt cs ds

/-- `sub in text` on character lists: some suffix of `text` starts with `sub`. -/
def hasSub (sub : List Char) : List Char → Bool
  | [] => matchAt sub []
  | d :: ds => matchAt sub (d :: ds) || hasSub sub ds

/-- Python `kw in s.lower()` for a lowercase keyword `kw`
(`str.lower` mapped over the characters). -/
def pyInLower (kw s : String) : Bool :=
  hasSub kw.data (s.data.map Char.toLower)

/-- The single move carried by a combatant (`fetch_pokemon_full_data`
result): `power` is `none` when the upstream field was `null`. -/
structure Move where
  name : String
  power : Option ℕ
  type : String
  effect : Option String
  deriving DecidableEq, Repr

/-- A resolved combatant: `base_stats` is the stat-name → base-stat dict as
a key/value list, `types` the type names, `move` the first move. -/
structure Combatant where
  name : String
  base_stats : List (String × ℕ)
  types : List String
  move : Move
  deriving DecidableEq, Repr

/-- `TYPE_EFFECTIVENESS` from `src/server.py:12-150`, entry for entry;
`⟨1, 2⟩` is the float `0.5`, `⟨2, 1⟩` is `2.0`, `⟨0, 1⟩` is `0.0`. -/
def TYPE_EFFECTIVENESS : List (String × List (String × Frac)) :=
  [("normal", [("rock", ⟨1, 2⟩), ("ghost", ⟨0, 1⟩), ("steel", ⟨1, 2⟩)]),
   ("fire", [("fire", ⟨1, 2⟩), ("water", ⟨1, 2⟩), ("grass", ⟨2, 1⟩),
             ("ice", ⟨2, 1⟩), ("bug", ⟨2, 1⟩), ("rock", ⟨1, 2⟩),
             ("dragon", ⟨1, 2⟩), ("steel", ⟨2, 1⟩)]),
   ("water", [("fire", ⟨2, 1⟩), ("water", ⟨1, 2⟩), ("grass", ⟨1, 2⟩),
              ("ground", ⟨2, 1⟩), ("rock", ⟨2, 1⟩), ("dragon", ⟨1, 2⟩)]),
   ("electric", [("water", ⟨2, 1⟩), ("electric", ⟨1, 2⟩), ("grass", ⟨1, 2⟩),
                 ("ground", ⟨0, 1⟩), ("flying", ⟨2, 1⟩), ("dragon", ⟨1, 2⟩)]),
   ("grass", [("fire", ⟨1, 2⟩), ("water", ⟨2, 1⟩), ("grass", ⟨1, 2⟩),
              ("poison", ⟨1, 2⟩), ("ground", ⟨2, 1⟩), ("flying", ⟨1, 2⟩),
              ("bug", ⟨1, 2⟩), ("rock", ⟨2, 1⟩), ("dragon", ⟨1, 2⟩),
              ("steel", ⟨1, 2⟩)]),
   ("ice", [("fire", ⟨1, 2⟩), ("water", ⟨1, 2⟩), ("grass", ⟨2, 1⟩),
            ("ice", ⟨1, 2⟩), ("ground", ⟨2, 1⟩), ("flying", ⟨2, 1⟩),
            ("dragon", ⟨2, 1⟩), ("steel", ⟨1, 2⟩)]),
   ("fighting", [("normal", ⟨2, 1⟩), ("ice", ⟨2, 1⟩), ("rock", ⟨2, 1⟩),
                 ("dark", ⟨2, 1⟩), ("steel", ⟨2, 1⟩), ("poison", ⟨1, 2⟩),
                 ("flying", ⟨1, 2⟩), ("psychic", ⟨1, 2⟩), ("bug", ⟨1, 2⟩),
                 ("ghost", ⟨0, 1⟩), ("fairy", ⟨1, 2⟩)]),
   ("poison", [("grass", ⟨2, 1⟩), ("poison", ⟨1, 2⟩), ("ground", ⟨1, 2⟩),
               ("rock", ⟨1, 2⟩), ("ghost", ⟨1, 2⟩), ("steel", ⟨0, 1⟩),
               ("fairy", ⟨2, 1⟩)]),
   ("ground", [("fire", ⟨2, 1⟩), ("electric", ⟨2, 1⟩), ("grass", ⟨1, 2⟩),
               ("poison", ⟨2, 1⟩), ("flying", ⟨0, 1⟩), ("bug", ⟨1, 2⟩),
               ("rock", ⟨2, 1⟩), ("steel", ⟨2, 1⟩)]),
   ("flying", [("electric", ⟨1, 2⟩), ("grass", ⟨2, 1⟩), ("fighting", ⟨2, 1⟩),
               ("bug", ⟨2, 1⟩), ("rock", ⟨1, 2⟩), ("steel", ⟨1, 2⟩)]),
   ("psychic", [("fighting", ⟨2, 1⟩), ("poison", ⟨2, 1⟩),
                ("psychic", ⟨1, 2⟩), ("dark", ⟨0, 1⟩), ("steel", ⟨1, 2⟩)]),
   ("bug", [("fire", ⟨1, 2⟩), ("grass", ⟨2, 1⟩), ("fighting", ⟨1, 2⟩),
            ("poison", ⟨1, 2⟩), ("flying", ⟨1, 2⟩), ("psychic", ⟨2, 1⟩),
            ("ghost", ⟨1, 2⟩), ("dark", ⟨2, 1⟩), ("steel", ⟨1, 2⟩),
            ("fairy", ⟨1, 2⟩)]),
   ("rock", [("fire", ⟨2, 1⟩), ("ice", ⟨2, 1⟩), ("fighting", ⟨1, 2⟩),
             ("ground", ⟨1, 2⟩), ("flying", ⟨2, 1⟩), ("bug", ⟨2, 1⟩),
             ("steel", ⟨1, 2⟩)]),
   ("ghost", [("normal", ⟨0, 1⟩), ("psychic", ⟨2, 1⟩), ("ghost", ⟨2, 1⟩),
              ("dark", ⟨1, 2⟩)]),
   ("dragon", [("dragon", ⟨2, 1⟩), ("steel", ⟨1, 2⟩), ("fairy", ⟨0, 1⟩)]),
   ("dark", [("fighting", ⟨1, 2⟩), ("psychic", ⟨2, 1⟩), ("ghost", ⟨2, 1⟩),
             ("dark", ⟨1, 2⟩), ("fairy", ⟨1, 2⟩)]),
   ("steel", [("fire", ⟨1, 2⟩), ("water", ⟨1, 2⟩), ("electric", ⟨1, 2⟩),
              ("ice", ⟨2, 1⟩), ("rock", ⟨2, 1⟩), ("fairy", ⟨2, 1⟩),
              ("steel", ⟨1, 2⟩)]),
   ("fairy", [("fire", ⟨1, 2⟩), ("fighting", ⟨2, 1⟩), ("poison", ⟨1, 2⟩),
              ("dragon", ⟨2, 1⟩), ("dark", ⟨2, 1⟩), ("steel", ⟨1, 2⟩)])]

def STATUS_PARALYSIS : String := "paralysis"
def STATUS_BURN : String := "burn"
def STATUS_POISON : String := "poison"

/-- `get_type_multiplier` (`src/server.py:307-311`):
`TYPE_EFFECTIVENESS.get(attack_type, {}).get(d_type, 1.0)` folded into a
running product over the defender's types, starting from `1.0`. -/
def get_type_multiplier (attack_type : String) (defender_types : List String) :
    Frac :=
  defender_types.foldl
    (fun m d_type =>
      m.mul (pyGet (pyGet TYPE_EFFECTIVENESS attack_type []) d_type 1)) 1

/-- `calculate_damage` (`src/server.py:314-330`).  `none` models the
`ZeroDivisionError` Python raises when the defender's defense stat is 0;
`move["power"] or 50` maps both `null` and `0` to 50; `int(attack_stat/2)`
on a non-negative int is `Nat` division by 2.  The damage formula
`(((2*50/5 + 2) * power * attack_stat / defense_stat) / 50 + 2)
 * type_multiplier` is computed left to right as in the source. -/
def calculate_damage (attacker defender : Combatant) (status : Option String) :
    Option ℤ :=
  let attack_stat := pyGet attacker.base_stats "attack" 50
  let defense_stat := pyGet defender.base_stats "defense" 50
  let power := match attacker.move.power with
    | none => 50
    | some 0 => 50
    | some p => p
  let attack_stat := if status = some STATUS_BURN then attack_stat / 2 else attack_stat
  if defense_stat = 0 then none
  else
    let type_multiplier := get_type_multiplier attacker.move.type defender.types
    let base := (Frac.ofNat (2 * 50)).divN 5 |>.add (Frac.ofNat 2)
    let damage := pytrunc
      ((((base.mulN power).mulN attack_stat).divN defense_stat).divN 50
        |>.add (Frac.ofNat 2) |>.mul type_multiplier)
    some (max 1 damage)

/-- `apply_status_effects` (`src/server.py:333-343`): burn and poison deal
`max(1, hp // 16)` resp. `max(1, hp // 8)` end-of-turn damage (Python `//`
is floor division, `Int.fdiv`); paralysis and no status change nothing. -/
def apply_status_effects (status : Option String) (hp : ℤ) : ℤ × String :=
  if status = some STATUS_BURN then
    let burn_damage := max 1 (Int.fdiv hp 16)
    (hp - burn_damage, "Burn deals " ++ toString burn_damage ++ " damage. ")
  else if status = some STATUS_POISON then
    let poison_damage := max 1 (Int.fdiv hp 8)
    (hp - poison_damage, "Poison deals " ++ toString poison_damage ++ " damage. ")
  else (hp, "")

/-- `try_inflict_status` (`src/server.py:346-354`) given the next random
draw: keyword search over the lowercased effect text in the order
paralyze/burn/poison, then a 20% roll.  The second component tells whether
`random.random()` was called (a keyword matched), so the caller can advance
the draw stream exactly as Python does. -/
def try_inflict_status (move : Move) (draw : Frac) : Option String × Bool :=
  let effect := move.effect.getD ""
  if pyInLower "paralyze" effect then
    (if draw.blt ⟨1, 5⟩ then some STATUS_PARALYSIS else none, true)
  else if pyInLower "burn" effect then
    (if draw.blt ⟨1, 5⟩ then some STATUS_BURN else none, true)
  else if pyInLower "poison" effect then
    (if draw.blt ⟨1, 5⟩ then some STATUS_POISON else none, true)
  else (none, false)

/-- Result of one side's half of a round: the defender's updated hp and
status, the log lines produced, and the advanced draw index. -/
structure HalfResult where
  d_hp : ℤ
  d_status : Option String
  logs : List String
  i : ℕ
  deriving DecidableEq, Repr

/-- The attack proper (`src/server.py:393-402` and symmetrically 414-422):
damage, attack narration, then the status-infliction attempt, whose result
is applied only when the defender currently has no status.  `none` models a
`ZeroDivisionError` inside `calculate_damage`. -/
def attack_action (atk dfn : Combatant) (a_status d_status : Option String)
    (d_hp : ℤ) (draws : ℕ → Frac) (i : ℕ) :
    Option (ℤ × Option String × List String × ℕ) :=
  match calculate_damage atk dfn a_status with
  | none => none
  | some damage =>
    let hp := d_hp - damage
    let atk_log := atk.name ++ " uses " ++ atk.move.name ++ " and deals "
      ++ toString damage ++ " damage!"
    let inflict := try_inflict_status atk.move (draws i)
    let i1 := if inflict.2 then i + 1 else i
    match d_status, inflict.1 with
    | none, some ns =>
        some (hp, some ns, [atk_log, dfn.name ++ " is now " ++ ns ++ "!"], i1)
    | _, _ => some (hp, d_status, [atk_log], i1)

/-- The end-of-turn status application shared by the attack and the skip
path (`src/server.py:403-406` resp. 423-426): `apply_status_effects` on the
defender, with its narration fragment appended when non-empty. -/
def after_attack (dfn : Combatant)
    (res : ℤ × Option String × List String × ℕ) : HalfResult :=
  let applied := apply_status_effects res.2.1 res.1
  let lg2 := if applied.2 = "" then res.2.2.1
    else res.2.2.1 ++ [dfn.name ++ ": " ++ applied.2]
  ⟨applied.1, res.2.1, lg2, res.2.2.2⟩

/-- One side's half of a round (`src/server.py:390-406` resp. 411-426,
without the faint check): the paralysis skip roll (a draw is consumed only
when the attacker is paralyzed, by short-circuit evaluation), the attack,
then `apply_status_effects` on the defender. -/
def half_turn (atk dfn : Combatant) (a_status d_status : Option String)
    (d_hp : ℤ) (draws : ℕ → Frac) (i : ℕ) : Option HalfResult :=
  let acted :=
    if a_status = some STATUS_PARALYSIS then
      if (draws i).blt ⟨1, 4⟩ then
        some (d_hp, d_status, [atk.name ++ " is paralyzed and can't move!"], i + 1)
      else attack_action atk dfn a_status d_status d_hp draws (i + 1)
    else attack_action atk dfn a_status d_status d_hp draws i
  acted.map (after_attack dfn)

/-- Battle-loop state: the two sides' hp and status (in acting order), the
turn counter, the narration log, and the draw-stream index. -/
structure BState where
  first_hp : ℤ
  second_hp : ℤ
  first_status : Option String
  second_status : Option String
  turn : ℕ
  log : List String
  idx : ℕ
  deriving DecidableEq, Repr

/-- Outcome of one iteration of the `while` loop: a Python exception,
a `break` (with the final state), or the state for the next iteration. -/
inductive StepOut where
  | crash : StepOut
  | halt (s : BState) : StepOut
  | next (s : BState) : StepOut
  deriving DecidableEq, Repr

/-- One iteration of the battle loop (`src/server.py:387-430`): turn
banner, first side's half-turn, faint check on the second side, second
side's half-turn, faint check on the first side, turn increment.  Note the
second side's paralysis check uses its status as possibly just inflicted in
this same round. -/
def roundStep (first second : Combatant) (draws : ℕ → Frac) (s : BState) :
    StepOut :=
  let log0 := s.log ++ ["Turn " ++ toString s.turn ++ ":"]
  match half_turn first second s.first_status s.second_status s.second_hp draws s.idx with
  | none => .crash
  | some h1 =>
    if h1.d_hp ≤ 0 then
      .halt { s with
              second_hp := h1.d_hp, second_status := h1.d_status,
              log := log0 ++ h1.logs ++ [second.name ++ " fainted!"], idx := h1.i }
    else
      match half_turn second first h1.d_status s.first_status s.first_hp draws h1.i with
      | none => .crash
      | some h2 =>
        if h2.d_hp ≤ 0 then
          .halt { first_hp := h2.d_hp, second_hp := h1.d_hp,
                  first_status := h2.d_status, second_status := h1.d_status,
                  turn := s.turn,
                  log := log0 ++ h1.logs ++ h2.logs ++ [first.name ++ " fainted!"],
                  idx := h2.i }
        else
          .next { first_hp := h2.d_hp, second_hp := h1.d_hp,
                  first_status := h2.d_status, second_status := h1.d_status,
                  turn := s.turn + 1,
                  log := log0 ++ h1.logs ++ h2.logs,
                  idx := h2.i }

/-- Outcome of running the loop with a given amount of fuel: normal loop
exit with the final state, a Python exception, or fuel exhausted while the
loop is still running. -/
inductive RunOut where
  | out (s : BState) : RunOut
  | crash : RunOut
  | more : RunOut
  deriving DecidableEq, Repr

/-- The `while first_hp > 0 and second_hp > 0` loop (`src/server.py:387`),
fuel-indexed: `more` means the loop had not exited after `fuel`
iterations. -/
def runB (first second : Combatant) (draws : ℕ → Frac) : ℕ → BState → RunOut
  | 0, _ => .more
  | fuel + 1, s =>
    if 0 < s.first_hp ∧ 0 < s.second_hp then
      match roundStep first second draws s with
      | .crash => .crash
      | .halt s1 => .out s1
      | .next s1 => runB first second draws fuel s1
    else .out s

/-- Turn-order resolver (`src/server.py:379-381`): the side with
`speed1 >= speed2` (speeds defaulting to 50) acts first, ties going to the
first-named combatant. -/
def battle_first (poke1 poke2 : Combatant) : Combatant :=
  if pyGet poke1.base_stats "speed" 50 ≥ pyGet poke2.base_stats "speed" 50
  then poke1 else poke2

/-- The side that acts second (`src/server.py:381`). -/
def battle_second (poke1 poke2 : Combatant) : Combatant :=
  if pyGet poke1.base_stats "speed" 50 ≥ pyGet poke2.base_stats "speed" 50
  then poke2 else poke1

/-- Initial loop state (`src/server.py:372-386`): hp defaults to 100, no
statuses, turn counter 1, empty log, draw index 0. -/
def initBState (poke1 poke2 : Combatant) : BState :=
  let hp1 : ℤ := (pyGet poke1.base_stats "hp" 100 : ℕ)
  let hp2 : ℤ := (pyGet poke2.base_stats "hp" 100 : ℕ)
  let one_first := pyGet poke1.base_stats "speed" 50 ≥ pyGet poke2.base_stats "speed" 50
  { first_hp := if one_first then hp1 else hp2,
    second_hp := if one_first then hp2 else hp1,
    first_status := none, second_status := none,
    turn := 1, log := [], idx := 0 }

/-- `winner = first_name if first_hp > 0 else second_name`
(`src/server.py:431`). -/
def battle_winner (first second : Combatant) (s : BState) : String :=
  if 0 < s.first_hp then first.name else second.name

/-- A JSON-ish value appearing in a tool result dict. -/
inductive PyVal where
  | str (s : String) : PyVal
  | strList (l : List String) : PyVal
  deriving DecidableEq, Repr

/-- Result of `simulate_battle` after the two fetches: the error dict for a
missing combatant, the success dict, a propagated Python exception from the
loop, or non-termination of the loop within the given fuel. -/
inductive SimOut where
  | errDict (msg : String) : SimOut
  | okDict (d : List (String × PyVal)) : SimOut
  | crash : SimOut
  | timeout : SimOut
  deriving DecidableEq, Repr

/-- `simulate_battle` from the point where both fetch results are in hand
(`src/server.py:370-438`): `none` for a combatant models
`fetch_pokemon_full_data` returning `None`. -/
def simulate_battle_core (poke1 poke2 : Option Combatant) (draws : ℕ → Frac)
    (fuel : ℕ) : SimOut :=
  match poke1, poke2 with
  | some p1, some p2 =>
    let f := battle_first p1 p2
    let sd := battle_second p1 p2
    match runB f sd draws fuel (initBState p1 p2) with
    | .crash => .crash
    | .more => .timeout
    | .out r =>
      let winner := battle_winner f sd r
      .okDict [("pokemon1", .str p1.name), ("pokemon2", .str p2.name),
               ("battle_log", .strList (r.log ++ ["Winner: " ++ winner ++ "!"])),
               ("winner", .str winner)]
  | _, _ => .errDict "Could not fetch data for one or both Pokémon."

/-- One `client.get(url)` call: either the transport raises (httpx
`RequestError` and kin — `fetch_pokemon_full_data` does not catch it), or a
response with a status code and an already-parsed body arrives. -/
inductive GetStep (α : Type) where
  | exc (e : String) : GetStep α
  | resp (status_code : ℕ) (body : α) : GetStep α
  deriving DecidableEq, Repr

/-- Parsed body of the `/pokemon/{name}` endpoint, with the fields
`fetch_pokemon_full_data` reads: name, the stat entries
`(stat.stat.name, stat.base_stat)`, the type names, and the move list
(only emptiness and the first entry's URL are ever used). -/
structure PokeJson where
  name : String
  stats : List (String × ℕ)
  types : List String
  moves : List String
  deriving DecidableEq, Repr

/-- One entry of a move's `effect_entries`: language name and effect text. -/
structure EffectEntry where
  language : String
  effect : String
  deriving DecidableEq, Repr

/-- Parsed body of a move-detail endpoint.  `power` is two-level: the outer
`Option` is key presence (`.get("power", 50)` defaults only a missing key),
the inner `Option ℕ` is the value, which may be JSON `null`.  `typeName`
collapses `.get("type", {}).get("name", "normal")`: `none` when either key
is missing. -/
structure MoveJson where
  name : Option String
  power : Option (Option ℕ)
  typeName : Option String
  effect_entries : List EffectEntry
  deriving DecidableEq, Repr

/-- `fetch_pokemon_full_data` (`src/server.py:263-304`) over the two
`client.get` calls it makes: `.error` is an uncaught transport exception,
`.ok none` the function's `None` result (non-200 status, empty move list,
or non-200 move fetch), `.ok (some c)` a resolved combatant. -/
def fetch_pokemon_full_data (pokeGet : GetStep PokeJson)
    (moveGet : GetStep MoveJson) : Except String (Option Combatant) :=
  match pokeGet with
  | .exc e => .error e
  | .resp status data =>
    if status ≠ 200 then .ok none
    else if data.moves = [] then .ok none
    else
      match moveGet with
      | .exc e => .error e
      | .resp mstatus move_data =>
        if mstatus ≠ 200 then .ok none
        else
          let move_power : Option ℕ := match move_data.power with
            | none => some 50
            | some v => v
          let move_type := move_data.typeName.getD "normal"
          let move_name := move_data.name.getD "tackle"
          let move_effect :=
            (move_data.effect_entries.find? (fun e => e.language = "en")).map
              (fun e => e.effect)
          .ok (some { name := data.name, base_stats := data.stats,
                      types := data.types,
                      move := { name := move_name, power := move_power,
                                type := move_type, effect := move_effect } })

/-- What the `simulate_battle` tool call does as observed at the tool
boundary: return a value, or let a Python exception escape. -/
inductive TopOut where
  | returned (s : SimOut) : TopOut
  | raised (e : String) : TopOut
  deriving DecidableEq, Repr

/-- `simulate_battle` (`src/server.py:357-438`) end to end: the two fetches
in order (the body has no `try`/`except`, so an exception from either fetch
escapes, and the second fetch is not reached if the first raises), then the
battle. -/
def simulate_battle_top (poke1Get : GetStep PokeJson × GetStep MoveJson)
    (poke2Get : GetStep PokeJson × GetStep MoveJson)
    (draws : ℕ → Frac) (fuel : ℕ) : TopOut :=
  match fetch_pokemon_full_data poke1Get.1 poke1Get.2 with
  | .error e => .raised e
  | .ok poke1 =>
    match fetch_pokemon_full_data poke2Get.1 poke2Get.2 with
    | .error e => .raised e
    | .ok poke2 =>
      match simulate_battle_core poke1 poke2 draws fuel with
      | .crash => .raised "ZeroDivisionError"
      | out => .returned out

/-- The exceptions `get_pokemon_info` distinguishes: the two httpx error
classes it catches (`src/server.py:257-260`), and anything else, which its
`try` does not cover. -/
inductive InfoExc where
  | httpStatusError (e : String) : InfoExc
  | requestError (e : String) : InfoExc
  | other (e : String) : InfoExc
  deriving DecidableEq, Repr

/-- `get_pokemon_info`'s exception handling (`src/server.py:170,257-260`):
the `try` body either produces the info dict or raises; `HTTPStatusError`
and `RequestError` become `{error: ...}` dicts, any other exception
escapes the tool boundary. -/
def get_pokemon_info (body : Except InfoExc (List (String × PyVal))) :
    Except String (List (String × PyVal)) :=
  match body with
  | .ok d => .ok d
  | .error (.httpStatusError e) => .ok [("error", .str ("HTTP error: " ++ e))]
  | .error (.requestError e) => .ok [("error", .str ("Request error: " ++ e))]
  | .error (.other e) => .error e

/-! ## Shared concrete instances used by several claims -/

/-- A plain 50-power normal move with no effect text. -/
def mvTackle : Move :=
  { name := "tackle", power := some 50, type := "normal", effect := none }

/-- The faster combatant of the end-to-end scenario: all stats 100. -/
def pFast : Combatant :=
  { name := "a",
    base_stats := [("hp", 100), ("attack", 100), ("defense", 100), ("speed", 100)],
    types := ["normal"], move := mvTackle }

/-- The slower combatant of the end-to-end scenario: speed 50. -/
def pSlow : Combatant :=
  { name := "b",
    base_stats := [("hp", 100), ("attack", 100), ("defense", 100), ("speed", 50)],
    types := ["normal"], move := mvTackle }

/-- A degenerate draw stream (never relevant when no draws are consumed). -/
def dZero : ℕ → Frac := fun _ => ⟨0, 1⟩

/-- A combatant whose defense stat is present and zero. -/
def pNoDef : Combatant :=
  { name := "z", base_stats := [("defense", 0)], types := ["normal"],
    move := mvTackle }

/-- The narration produced by the end-to-end scenario battle. -/
def c1log : List String :=
  ["Turn 1:", "a uses tackle and deals 24 damage!",
   "b uses tackle and deals 24 damage!",
   "Turn 2:", "a uses tackle and deals 24 damage!",
   "b uses tackle and deals 24 damage!",
   "Turn 3:", "a uses tackle and deals 24 damage!",
   "b uses tackle and deals 24 damage!",
   "Turn 4:", "a uses tackle and deals 24 damage!",
   "b uses tackle and deals 24 damage!",
   "Turn 5:", "a uses tackle and deals 24 damage!", "b fainted!"]

/-- Final loop state of the end-to-end scenario. -/
def c1final : BState := ⟨4, -20, none, none, 5, c1log, 0⟩

/-- The statuses a side can hold: none or one of the three conditions. -/
def statusDomain : List (Option String) :=
  [none, some STATUS_PARALYSIS, some STATUS_BURN, some STATUS_POISON]

/-- A move whose effect text can inflict paralysis. -/
def canParalyze (m : Move) : Prop :=
  pyInLower "paralyze" (m.effect.getD "") = true

instance (m : Move) : Decidable (canParalyze m) := by
  unfold canParalyze; infer_instance

/-- Python float multiplication as the `Frac` monoid operation. -/
instance : Mul Frac := ⟨Frac.mul⟩

/-- `Frac` is a monoid under exact multiplication with unit `1.0`; this is
what makes "the product across all defending types" well defined. -/
instance : Monoid Frac where
  mul_assoc a b c := by
    show Frac.mul (Frac.mul a b) c = Frac.mul a (Frac.mul b c)
    simp [Frac.mul, mul_assoc]
  one_mul a := by
    show Frac.mul ⟨1, 1⟩ a = a
    simp [Frac.mul]
  mul_one a := by
    show Frac.mul a ⟨1, 1⟩ = a
    simp [Frac.mul]

/-- Modelled from the spec's words (section 4.1): the multiplier is "the
product across all defending types" of the per-type lookups
`table[attackType][defenderType]` with default `1.0`. -/
def multiplier_spec (attack_type : String) (defender_types : List String) :
    Frac :=
  (defender_types.map
    (fun d_type => pyGet (pyGet TYPE_EFFECTIVENESS attack_type []) d_type 1)).prod

/-- A move with none of the three status keywords in its effect text: the
infliction attempt does nothing and consumes no draw. -/
def kwFree (m : Move) : Prop :=
  pyInLower "paralyze" (m.effect.getD "") = false ∧
  pyInLower "burn" (m.effect.getD "") = false ∧
  pyInLower "poison" (m.effect.getD "") = false

instance (m : Move) : Decidable (kwFree m) := by
  unfold kwFree; infer_instance

/-- A 50-power move whose effect text can inflict paralysis. -/
def mvPara : Move :=
  { name := "thunder-wave", power := some 50, type := "electric",
    effect := some "May paralyze the target." }

/-- The faster combatant of the mutual-paralysis scenario. -/
def pFastP : Combatant :=
  { name := "a",
    base_stats := [("hp", 100), ("attack", 100), ("defense", 100), ("speed", 100)],
    types := ["normal"], move := mvPara }

/-- The slower combatant of the mutual-paralysis scenario. -/
def pSlowP : Combatant :=
  { name := "b",
    base_stats := [("hp", 100), ("attack", 100), ("defense", 100), ("speed", 50)],
    types := ["normal"], move := mvPara }

/-- A draw stream under which both sides become paralyzed in round 1 and
every later paralysis skip roll succeeds: draw 0 (first's infliction roll)
and draw 2 (second's infliction roll) are 0.1 < 0.2; draw 1 (second's skip
roll in round 1) is 0.5 ≥ 0.25 so the second side still attacks; every draw
from index 2 on is 0.1 < 0.25, so both paralyzed sides skip forever. -/
def drawsP : ℕ → Frac := fun i => if i = 1 then ⟨1, 2⟩ else ⟨1, 10⟩

/-- The loop state after round 1 of the mutual-paralysis scenario. -/
def paraState : BState :=
  ⟨76, 76, some STATUS_PARALYSIS, some STATUS_PARALYSIS, 2,
   ["Turn 1:", "a uses thunder-wave and deals 24 damage!",
    "b is now paralysis!",
    "b uses thunder-wave and deals 24 damage!",
    "a is now paralysis!"], 3⟩

/-- A parsed Pokémon record with an empty move list. -/
def pjNoMoves : PokeJson :=
  { name := "ditto", stats := [("hp", 48)], types := ["normal"], moves := [] }

/-- A parsed Pokémon record used where the body is irrelevant. -/
def pjDummy : PokeJson :=
  { name := "missingno", stats := [], types := [], moves := ["url"] }

/-- A parsed move record used where the body is irrelevant. -/
def mjDummy : MoveJson :=
  { name := none, power := none, typeName := none, effect_entries := [] }

/-- The success dict produced by the end-to-end scenario battle. -/
def c9dict : List (String × PyVal) :=
  [("pokemon1", PyVal.str "a"), ("pokemon2", PyVal.str "b"),
   ("battle_log", PyVal.strList (c1log ++ ["Winner: a!"])),
   ("winner", PyVal.str "a")]

/-! ## Helper lemmas about the engine's components -/

/-- End-of-turn status damage never heals: the resulting hp is at most the
input hp. -/
lemma apply_status_effects_le (status : Option String) (hp : ℤ) :
    (apply_status_effects status hp).1 ≤ hp := by
  have h16 := le_max_left 1 (Int.fdiv hp 16)
  have h8 := le_max_left 1 (Int.fdiv hp 8)
  simp only [apply_status_effects]
  split_ifs <;> simp <;> try omega

/-- A computed damage value is at least 1 (`max(1, damage)`). -/
lemma calculate_damage_ge_one (attacker defender : Combatant)
    (status : Option String) (d : ℤ)
    (h : calculate_damage attacker defender status = some d) : 1 ≤ d := by
  simp only [calculate_damage] at h
  by_cases hdef : pyGet defender.base_stats "defense" 50 = 0
  · rw [if_pos hdef] at h; cases h
  · rw [if_neg hdef, Option.some_inj] at h
    exact h ▸ le_max_left 1 _

/-- With a nonzero (defaulted) defense stat, `calculate_damage` returns a
value, and that value is at least 1. -/
lemma calculate_damage_some (attacker defender : Combatant)
    (status : Option String)
    (hdef : pyGet defender.base_stats "defense" 50 ≠ 0) :
    ∃ d, calculate_damage attacker defender status = some d ∧ 1 ≤ d := by
  simp only [calculate_damage]
  rw [if_neg hdef]
  exact ⟨_, rfl, le_max_left 1 _⟩

/-- A status produced by `try_inflict_status` is in the status domain. -/
lemma try_inflict_fst_mem (m : Move) (d : Frac) :
    (try_inflict_status m d).1 ∈ statusDomain := by
  simp only [try_inflict_status]
  split_ifs <;> simp [statusDomain]

/-- `try_inflict_status` returns paralysis only when the effect text
contains the "paralyze" keyword. -/
lemma try_inflict_para (m : Move) (d : Frac)
    (h : (try_inflict_status m d).1 = some STATUS_PARALYSIS) :
    canParalyze m := by
  unfold canParalyze
  by_cases hkw : pyInLower "paralyze" (m.effect.getD "") = true
  · exact hkw
  · exfalso
    unfold try_inflict_status at h
    rw [if_neg hkw] at h
    split_ifs at h <;>
      simp_all [STATUS_PARALYSIS, STATUS_BURN, STATUS_POISON]

/-- Facts about a completed attack: the damage subtracted is a computed
`calculate_damage` value; the defender's status is preserved whenever it
was already set, comes from the status domain when newly set, and can
become paralysis only through a paralyzing move. -/
lemma attack_action_parts (atk dfn : Combatant) (a_st d_st : Option String)
    (hp : ℤ) (draws : ℕ → Frac) (i : ℕ)
    (r : ℤ × Option String × List String × ℕ)
    (h : attack_action atk dfn a_st d_st hp draws i = some r) :
    (∃ dmg, calculate_damage atk dfn a_st = some dmg ∧ r.1 = hp - dmg) ∧
    (∀ x, d_st = some x → r.2.1 = some x) ∧
    (r.2.1 ∈ statusDomain ∨ r.2.1 = d_st) ∧
    (r.2.1 = some STATUS_PARALYSIS →
      d_st = some STATUS_PARALYSIS ∨ canParalyze atk.move) := by
  simp only [attack_action] at h
  cases hc : calculate_damage atk dfn a_st with
  | none => simp [hc] at h
  | some dmg =>
    simp only [hc] at h
    cases d_st with
    | none =>
      cases hi : (try_inflict_status atk.move (draws i)).1 with
      | none =>
        simp only [hi] at h
        rw [Option.some_inj] at h
        subst h
        refine ⟨⟨dmg, rfl, rfl⟩, ?_, Or.inr rfl, ?_⟩
        · intro x hx; cases hx
        · intro hx; cases hx
      | some ns =>
        simp only [hi] at h
        rw [Option.some_inj] at h
        subst h
        refine ⟨⟨dmg, rfl, rfl⟩, ?_, ?_, ?_⟩
        · intro x hx; cases hx
        · have hmem := try_inflict_fst_mem atk.move (draws i)
          rw [hi] at hmem
          exact Or.inl hmem
        · intro hx
          exact Or.inr (try_inflict_para atk.move (draws i) (hi.trans hx))
    | some x =>
      simp only at h
      rw [Option.some_inj] at h
      subst h
      refine ⟨⟨dmg, rfl, rfl⟩, ?_, Or.inr rfl, ?_⟩
      · intro y hy; exact hy
      · intro hx; exact Or.inl hx

/-- With a nonzero (defaulted) defense stat of the defender, the attack
cannot raise. -/
lemma attack_action_isSome (atk dfn : Combatant) (a_st d_st : Option String)
    (hp : ℤ) (draws : ℕ → Frac) (i : ℕ)
    (hdef : pyGet dfn.base_stats "defense" 50 ≠ 0) :
    ∃ r, attack_action atk dfn a_st d_st hp draws i = some r := by
  simp only [attack_action]
  obtain ⟨d, hd, _⟩ := calculate_damage_some atk dfn a_st hdef
  simp only [hd]
  split <;> exact ⟨_, rfl⟩

/-- The status application step never increases the defender's hp. -/
lemma after_attack_hp (dfn : Combatant)
    (res : ℤ × Option String × List String × ℕ) :
    (after_attack dfn res).d_hp ≤ res.1 := by
  simp only [after_attack]
  exact apply_status_effects_le res.2.1 res.1

/-- The status application step does not change the defender's status. -/
lemma after_attack_status (dfn : Combatant)
    (res : ℤ × Option String × List String × ℕ) :
    (after_attack dfn res).d_status = res.2.1 := rfl

/-- Facts about a completed half-turn: the defender's hp does not increase
(and strictly decreases when the attacker was not paralyzed); an existing
defender status is untouched; the status stays inside the status domain;
paralysis appears only from a paralyzing move. -/
lemma half_turn_parts (atk dfn : Combatant) (a_st d_st : Option String)
    (hp : ℤ) (draws : ℕ → Frac) (i : ℕ) (h : HalfResult)
    (hh : half_turn atk dfn a_st d_st hp draws i = some h) :
    h.d_hp ≤ hp ∧
    (∀ x, d_st = some x → h.d_status = some x) ∧
    (h.d_status ∈ statusDomain ∨ h.d_status = d_st) ∧
    (h.d_status = some STATUS_PARALYSIS →
      d_st = some STATUS_PARALYSIS ∨ canParalyze atk.move) ∧
    (a_st ≠ some STATUS_PARALYSIS → h.d_hp < hp) := by
  simp only [half_turn] at hh
  rw [Option.map_eq_some'] at hh
  obtain ⟨r, hr, hr2⟩ := hh
  subst hr2
  have key : ∀ j, attack_action atk dfn a_st d_st hp draws j = some r →
      (after_attack dfn r).d_hp < hp ∧
      (∀ x, d_st = some x → (after_attack dfn r).d_status = some x) ∧
      ((after_attack dfn r).d_status ∈ statusDomain ∨
        (after_attack dfn r).d_status = d_st) ∧
      ((after_attack dfn r).d_status = some STATUS_PARALYSIS →
        d_st = some STATUS_PARALYSIS ∨ canParalyze atk.move) := by
    intro j hj
    obtain ⟨⟨dmg, hdmg, hr1⟩, hpres, hdom, hpara⟩ :=
      attack_action_parts atk dfn a_st d_st hp draws j r hj
    have hd1 : 1 ≤ dmg := calculate_damage_ge_one atk dfn a_st dmg hdmg
    have hle := after_attack_hp dfn r
    have hst := after_attack_status dfn r
    refine ⟨?_, ?_, ?_, ?_⟩
    · rw [hr1] at hle; omega
    · intro x hx; rw [hst]; exact hpres x hx
    · rw [hst]; exact hdom
    · rw [hst]; exact hpara
  by_cases hpar : a_st = some STATUS_PARALYSIS
  · rw [if_pos hpar] at hr
    by_cases hroll : (draws i).blt ⟨1, 4⟩ = true
    · rw [if_pos hroll] at hr
      rw [Option.some_inj] at hr
      subst hr
      refine ⟨after_attack_hp dfn _, ?_, ?_, ?_, ?_⟩
      · intro x hx; rw [after_attack_status]; exact hx
      · exact Or.inr (after_attack_status dfn _)
      · intro hx; rw [after_attack_status] at hx; exact Or.inl hx
      · intro hcon; exact (hcon hpar).elim
    · rw [if_neg hroll] at hr
      obtain ⟨hlt, hpres, hdom, hpara⟩ := key (i + 1) hr
      exact ⟨le_of_lt hlt, hpres, hdom, hpara, fun hcon => (hcon hpar).elim⟩
  · rw [if_neg hpar] at hr
    obtain ⟨hlt, hpres, hdom, hpara⟩ := key i hr
    exact ⟨le_of_lt hlt, hpres, hdom, hpara, fun _ => hlt⟩

/-- With a nonzero (defaulted) defense stat of the defender, a half-turn
cannot raise. -/
lemma half_turn_isSome (atk dfn : Combatant) (a_st d_st : Option String)
    (hp : ℤ) (draws : ℕ → Frac) (i : ℕ)
    (hdef : pyGet dfn.base_stats "defense" 50 ≠ 0) :
    ∃ h, half_turn atk dfn a_st d_st hp draws i = some h := by
  simp only [half_turn]
  by_cases hpar : a_st = some STATUS_PARALYSIS
  · rw [if_pos hpar]
    by_cases hroll : (draws i).blt ⟨1, 4⟩ = true
    · rw [if_pos hroll]; exact ⟨_, rfl⟩
    · rw [if_neg hroll]
      obtain ⟨r, hr⟩ := attack_action_isSome atk dfn a_st d_st hp draws (i + 1) hdef
      rw [hr]; exact ⟨_, rfl⟩
  · rw [if_neg hpar]
    obtain ⟨r, hr⟩ := attack_action_isSome atk dfn a_st d_st hp draws i hdef
    rw [hr]; exact ⟨_, rfl⟩

/-- Decomposition of a round that continues: both half-turns completed,
neither faint check fired, and the next state's fields come from them. -/
lemma roundStep_next_parts (f sd : Combatant) (draws : ℕ → Frac)
    (s s' : BState) (h : roundStep f sd draws s = StepOut.next s') :
    ∃ h1 h2,
      half_turn f sd s.first_status s.second_status s.second_hp draws s.idx
          = some h1 ∧
      ¬ h1.d_hp ≤ 0 ∧
      half_turn sd f h1.d_status s.first_status s.first_hp draws h1.i
          = some h2 ∧
      ¬ h2.d_hp ≤ 0 ∧
      s'.first_hp = h2.d_hp ∧ s'.second_hp = h1.d_hp ∧
      s'.first_status = h2.d_status ∧ s'.second_status = h1.d_status := by
  simp only [roundStep] at h
  cases hh1 : half_turn f sd s.first_status s.second_status s.second_hp draws s.idx with
  | none => simp [hh1] at h
  | some h1 =>
    simp only [hh1] at h
    by_cases hf1 : h1.d_hp ≤ 0
    · rw [if_pos hf1] at h; simp at h
    · rw [if_neg hf1] at h
      cases hh2 : half_turn sd f h1.d_status s.first_status s.first_hp draws h1.i with
      | none => simp [hh2] at h
      | some h2 =>
        simp only [hh2] at h
        by_cases hf2 : h2.d_hp ≤ 0
        · rw [if_pos hf2] at h; simp at h
        · rw [if_neg hf2] at h
          injection h with h
          subst h
          exact ⟨h1, h2, rfl, hf1, hh2, hf2, rfl, rfl, rfl, rfl⟩

/-- Decomposition of a round that ended with a faint: either the second
side fainted right after the first side's half-turn, or it survived and
the first side fainted after the second side's half-turn. -/
lemma roundStep_halt_parts (f sd : Combatant) (draws : ℕ → Frac)
    (s s1 : BState) (h : roundStep f sd draws s = StepOut.halt s1) :
    (∃ h1,
      half_turn f sd s.first_status s.second_status s.second_hp draws s.idx
          = some h1 ∧
      h1.d_hp ≤ 0 ∧ s1.first_hp = s.first_hp ∧ s1.second_hp = h1.d_hp ∧
      s1.first_status = s.first_status ∧ s1.second_status = h1.d_status) ∨
    (∃ h1 h2,
      half_turn f sd s.first_status s.second_status s.second_hp draws s.idx
          = some h1 ∧
      ¬ h1.d_hp ≤ 0 ∧
      half_turn sd f h1.d_status s.first_status s.first_hp draws h1.i
          = some h2 ∧
      h2.d_hp ≤ 0 ∧ s1.first_hp = h2.d_hp ∧ s1.second_hp = h1.d_hp ∧
      s1.first_status = h2.d_status ∧ s1.second_status = h1.d_status) := by
  simp only [roundStep] at h
  cases hh1 : half_turn f sd s.first_status s.second_status s.second_hp draws s.idx with
  | none => simp [hh1] at h
  | some h1 =>
    simp only [hh1] at h
    by_cases hf1 : h1.d_hp ≤ 0
    · rw [if_pos hf1] at h
      injection h with h
      subst h
      exact Or.inl ⟨h1, rfl, hf1, rfl, rfl, rfl, rfl⟩
    · rw [if_neg hf1] at h
      cases hh2 : half_turn sd f h1.d_status s.first_status s.first_hp draws h1.i with
      | none => simp [hh2] at h
      | some h2 =>
        simp only [hh2] at h
        by_cases hf2 : h2.d_hp ≤ 0
        · rw [if_pos hf2] at h
          injection h with h
          subst h
          exact Or.inr ⟨h1, h2, rfl, hf1, hh2, hf2, rfl, rfl, rfl, rfl⟩
        · rw [if_neg hf2] at h; simp at h

/-- With nonzero (defaulted) defense stats on both sides, a round cannot
raise. -/
lemma roundStep_no_crash (f sd : Combatant) (draws : ℕ → Frac) (s : BState)
    (hdf : pyGet f.base_stats "defense" 50 ≠ 0)
    (hdsd : pyGet sd.base_stats "defense" 50 ≠ 0) :
    roundStep f sd draws s ≠ StepOut.crash := by
  simp only [roundStep]
  obtain ⟨h1, hh1⟩ :=
    half_turn_isSome f sd s.first_status s.second_status s.second_hp draws s.idx hdsd
  simp only [hh1]
  by_cases hf1 : h1.d_hp ≤ 0
  · rw [if_pos hf1]; simp
  · rw [if_neg hf1]
    obtain ⟨h2, hh2⟩ :=
      half_turn_isSome sd f h1.d_status s.first_status s.first_hp draws h1.i hdf
    simp only [hh2]
    by_cases hf2 : h2.d_hp ≤ 0
    · rw [if_pos hf2]; simp
    · rw [if_neg hf2]; simp

/-- At a normal loop exit reached from a state with both sides alive,
exactly one side is at 0 or below, and the other is still alive. -/
lemma runB_out_faint (f sd : Combatant) (draws : ℕ → Frac) :
    ∀ (n : ℕ) (s r : BState), 0 < s.first_hp → 0 < s.second_hp →
      runB f sd draws n s = RunOut.out r →
      (r.second_hp ≤ 0 ∧ 0 < r.first_hp) ∨
      (r.first_hp ≤ 0 ∧ 0 < r.second_hp) := by
  intro n
  induction n with
  | zero => intro s r _ _ h; simp [runB] at h
  | succ m ih =>
    intro s r hp1 hp2 h
    simp only [runB] at h
    rw [if_pos ⟨hp1, hp2⟩] at h
    cases hstep : roundStep f sd draws s with
    | crash => rw [hstep] at h; simp at h
    | halt s1 =>
      rw [hstep] at h
      simp only at h
      injection h with h
      subst h
      rcases roundStep_halt_parts f sd draws s s1 hstep with
        ⟨h1, _, hle0, hfe, hse, _, _⟩ | ⟨h1, h2, _, hnf, _, hle0, hfe, hse, _, _⟩
      · exact Or.inl ⟨hse ▸ hle0, hfe ▸ hp1⟩
      · refine Or.inr ⟨hfe ▸ hle0, ?_⟩
        rw [hse]; omega
    | next s1 =>
      rw [hstep] at h
      simp only at h
      obtain ⟨h1, h2, _, hf1, _, hf2, hfe, hse, _, _⟩ :=
        roundStep_next_parts f sd draws s s1 hstep
      exact ih s1 r (by omega) (by omega) h

/-- Termination when the second-acting side cannot inflict paralysis: the
first side attacks every round, so the second side's hp strictly decreases
and the loop exits within `second_hp + 1` rounds. -/
lemma runB_term_A (f sd : Combatant) (draws : ℕ → Frac)
    (hdf : pyGet f.base_stats "defense" 50 ≠ 0)
    (hdsd : pyGet sd.base_stats "defense" 50 ≠ 0)
    (hnp : ¬ canParalyze sd.move) :
    ∀ (n : ℕ) (s : BState), s.first_status ≠ some STATUS_PARALYSIS →
      s.second_hp.toNat ≤ n →
      ∃ r, runB f sd draws (n + 1) s = RunOut.out r := by
  intro n
  induction n with
  | zero =>
    intro s hinv hm
    simp only [runB]
    have hno : ¬ (0 < s.first_hp ∧ 0 < s.second_hp) := by
      rintro ⟨_, hs2⟩; omega
    rw [if_neg hno]
    exact ⟨s, rfl⟩
  | succ m ih =>
    intro s hinv hm
    simp only [runB]
    by_cases hrun : 0 < s.first_hp ∧ 0 < s.second_hp
    · rw [if_pos hrun]
      cases hstep : roundStep f sd draws s with
      | crash => exact absurd hstep (roundStep_no_crash f sd draws s hdf hdsd)
      | halt s1 => exact ⟨s1, rfl⟩
      | next s1 =>
        obtain ⟨h1, h2, hh1, hf1, hh2, hf2, hfe, hse, hfs, hss⟩ :=
          roundStep_next_parts f sd draws s s1 hstep
        obtain ⟨_, _, _, _, hdec1⟩ :=
          half_turn_parts f sd s.first_status s.second_status s.second_hp
            draws s.idx h1 hh1
        obtain ⟨_, _, _, hpara2, _⟩ :=
          half_turn_parts sd f h1.d_status s.first_status s.first_hp
            draws h1.i h2 hh2
        have hinv1 : s1.first_status ≠ some STATUS_PARALYSIS := by
          rw [hfs]
          intro hc
          rcases hpara2 hc with hc2 | hc2
          · exact hinv hc2
          · exact hnp hc2
        have hdec : s1.second_hp < s.second_hp := hse ▸ hdec1 hinv
        have hm1 : s1.second_hp.toNat ≤ m := by omega
        exact ih s1 hinv1 hm1
    · rw [if_neg hrun]
      exact ⟨s, rfl⟩

/-- Termination when the first-acting side cannot inflict paralysis: the
second side attacks every round, so the first side's hp strictly decreases
and the loop exits within `first_hp + 1` rounds. -/
lemma runB_term_B (f sd : Combatant) (draws : ℕ → Frac)
    (hdf : pyGet f.base_stats "defense" 50 ≠ 0)
    (hdsd : pyGet sd.base_stats "defense" 50 ≠ 0)
    (hnp : ¬ canParalyze f.move) :
    ∀ (n : ℕ) (s : BState), s.second_status ≠ some STATUS_PARALYSIS →
      s.first_hp.toNat ≤ n →
      ∃ r, runB f sd draws (n + 1) s = RunOut.out r := by
  intro n
  induction n with
  | zero =>
    intro s hinv hm
    simp only [runB]
    have hno : ¬ (0 < s.first_hp ∧ 0 < s.second_hp) := by
      rintro ⟨hs1, _⟩; omega
    rw [if_neg hno]
    exact ⟨s, rfl⟩
  | succ m ih =>
    intro s hinv hm
    simp only [runB]
    by_cases hrun : 0 < s.first_hp ∧ 0 < s.second_hp
    · rw [if_pos hrun]
      cases hstep : roundStep f sd draws s with
      | crash => exact absurd hstep (roundStep_no_crash f sd draws s hdf hdsd)
      | halt s1 => exact ⟨s1, rfl⟩
      | next s1 =>
        obtain ⟨h1, h2, hh1, hf1, hh2, hf2, hfe, hse, hfs, hss⟩ :=
          roundStep_next_parts f sd draws s s1 hstep
        obtain ⟨_, _, _, hpara1, _⟩ :=
          half_turn_parts f sd s.first_status s.second_status s.second_hp
            draws s.idx h1 hh1
        have hst1 : h1.d_status ≠ some STATUS_PARALYSIS := by
          intro hc
          rcases hpara1 hc with hc2 | hc2
          · exact hinv hc2
          · exact hnp hc2
        obtain ⟨_, _, _, _, hdec2⟩ :=
          half_turn_parts sd f h1.d_status s.first_status s.first_hp
            draws h1.i h2 hh2
        have hinv1 : s1.second_status ≠ some STATUS_PARALYSIS := hss ▸ hst1
        have hdec : s1.first_hp < s.first_hp := hfe ▸ hdec2 hst1
        have hm1 : s1.first_hp.toNat ≤ m := by omega
        exact ih s1 hinv1 hm1
    · rw [if_neg hrun]
      exact ⟨s, rfl⟩

/-- Termination whenever at most one of the two moves can inflict
paralysis, from any state with no statuses yet. -/
lemma runB_term_general (f sd : Combatant) (draws : ℕ → Frac)
    (hdf : pyGet f.base_stats "defense" 50 ≠ 0)
    (hdsd : pyGet sd.base_stats "defense" 50 ≠ 0)
    (hor : ¬ (canParalyze f.move ∧ canParalyze sd.move)) (s : BState)
    (hfs : s.first_status = none) (hss : s.second_status = none) :
    ∃ (fuel : ℕ) (r : BState), runB f sd draws fuel s = RunOut.out r := by
  by_cases hf : canParalyze f.move
  · have hsd : ¬ canParalyze sd.move := fun hc => hor ⟨hf, hc⟩
    obtain ⟨r, hr⟩ := runB_term_A f sd draws hdf hdsd hsd s.second_hp.toNat s
      (by rw [hfs]; intro hc; cases hc) (le_refl _)
    exact ⟨s.second_hp.toNat + 1, r, hr⟩
  · obtain ⟨r, hr⟩ := runB_term_B f sd draws hdf hdsd hf s.first_hp.toNat s
      (by rw [hss]; intro hc; cases hc) (le_refl _)
    exact ⟨s.first_hp.toNat + 1, r, hr⟩

/-- For a keyword-free move, `try_inflict_status` returns no status and
reports that `random.random()` was not called. -/
lemma try_inflict_kwFree (m : Move) (d : Frac) (h : kwFree m) :
    try_inflict_status m d = (none, false) := by
  obtain ⟨h1, h2, h3⟩ := h
  simp [try_inflict_status, h1, h2, h3]

/-- For a keyword-free move, the attack does not depend on the draw stream
and neither touches the defender's status nor advances the draw index. -/
lemma attack_action_kwFree_eq (atk dfn : Combatant) (a_st d_st : Option String)
    (hp : ℤ) (draws : ℕ → Frac) (i : ℕ) (hkw : kwFree atk.move) :
    attack_action atk dfn a_st d_st hp draws i =
      (calculate_damage atk dfn a_st).map (fun dmg =>
        (hp - dmg, d_st,
         [atk.name ++ " uses " ++ atk.move.name ++ " and deals "
           ++ toString dmg ++ " damage!"], i)) := by
  simp only [attack_action, try_inflict_kwFree atk.move (draws i) hkw]
  cases hc : calculate_damage atk dfn a_st with
  | none => rfl
  | some dmg => cases d_st <;> simp

/-- For a non-paralyzed attacker with a keyword-free move, the half-turn
does not depend on the draw stream. -/
lemma half_turn_kwFree_eq (atk dfn : Combatant) (a_st d_st : Option String)
    (hp : ℤ) (draws : ℕ → Frac) (i : ℕ)
    (hpar : a_st ≠ some STATUS_PARALYSIS) (hkw : kwFree atk.move) :
    half_turn atk dfn a_st d_st hp draws i =
      ((calculate_damage atk dfn a_st).map (fun dmg =>
        (hp - dmg, d_st,
         [atk.name ++ " uses " ++ atk.move.name ++ " and deals "
           ++ toString dmg ++ " damage!"], i))).map (after_attack dfn) := by
  simp only [half_turn, if_neg hpar,
    attack_action_kwFree_eq atk dfn a_st d_st hp draws i hkw]

/-- When no status is active on either side and neither move carries a
status keyword, a round is independent of the draw stream and leaves both
statuses at `none`. -/
lemma roundStep_indep (f sd : Combatant) (draws draws' : ℕ → Frac)
    (s : BState) (hfs : s.first_status = none) (hss : s.second_status = none)
    (hkf : kwFree f.move) (hks : kwFree sd.move) :
    roundStep f sd draws s = roundStep f sd draws' s ∧
    (∀ s', roundStep f sd draws s = StepOut.next s' →
      s'.first_status = none ∧ s'.second_status = none) := by
  have hpar1 : s.first_status ≠ some STATUS_PARALYSIS := by
    rw [hfs]; intro h; cases h
  simp only [roundStep,
    half_turn_kwFree_eq f sd s.first_status s.second_status s.second_hp
      draws s.idx hpar1 hkf,
    half_turn_kwFree_eq f sd s.first_status s.second_status s.second_hp
      draws' s.idx hpar1 hkf]
  cases hc : calculate_damage f sd s.first_status with
  | none => exact ⟨rfl, by intro s' h; cases h⟩
  | some dmg =>
    simp only [Option.map_some']
    set h1 := after_attack sd
      (s.second_hp - dmg, s.second_status,
       [f.name ++ " uses " ++ f.move.name ++ " and deals "
         ++ toString dmg ++ " damage!"], s.idx) with hh1
    have hst1 : h1.d_status = none := by
      rw [hh1, after_attack_status]; exact hss
    have hpar2 : h1.d_status ≠ some STATUS_PARALYSIS := by
      rw [hst1]; intro h; cases h
    by_cases hf1 : h1.d_hp ≤ 0
    · rw [if_pos hf1, if_pos hf1]
      exact ⟨rfl, by intro s' h; cases h⟩
    · rw [if_neg hf1, if_neg hf1]
      simp only [half_turn_kwFree_eq sd f h1.d_status s.first_status s.first_hp
          draws h1.i hpar2 hks,
        half_turn_kwFree_eq sd f h1.d_status s.first_status s.first_hp
          draws' h1.i hpar2 hks]
      refine ⟨by first | rfl | trivial, ?_⟩
      intro s' h
      cases hc2 : calculate_damage sd f h1.d_status with
      | none => simp [hc2] at h
      | some dmg2 =>
        rw [hc2] at h
        simp only [Option.map_some'] at h
        by_cases hf2 : (after_attack f
            (s.first_hp - dmg2, s.first_status,
             [sd.name ++ " uses " ++ sd.move.name ++ " and deals "
               ++ toString dmg2 ++ " damage!"], h1.i)).d_hp ≤ 0
        · rw [if_pos hf2] at h
          cases h
        · rw [if_neg hf2] at h
          injection h with h
          subst h
          refine ⟨?_, hst1⟩
          rw [after_attack_status]
          exact hfs

/-- With keyword-free moves and no initial statuses, the whole battle loop
is independent of the draw stream: no draw is ever consulted. -/
lemma runB_indep (f sd : Combatant) (draws draws' : ℕ → Frac)
    (hkf : kwFree f.move) (hks : kwFree sd.move) :
    ∀ (n : ℕ) (s : BState), s.first_status = none → s.second_status = none →
      runB f sd draws n s = runB f sd draws' n s := by
  intro n
  induction n with
  | zero => intro s _ _; rfl
  | succ m ih =>
    intro s hfs hss
    simp only [runB]
    by_cases hrun : 0 < s.first_hp ∧ 0 < s.second_hp
    · rw [if_pos hrun, if_pos hrun]
      obtain ⟨hiff, hnext⟩ := roundStep_indep f sd draws draws' s hfs hss hkf hks
      rw [← hiff]
      cases hstep : roundStep f sd draws s with
      | crash => rfl
      | halt s1 => rfl
      | next s1 =>
        obtain ⟨h1, h2⟩ := hnext s1 hstep
        exact ih s1 h1 h2
    · rw [if_neg hrun, if_neg hrun]

/-- Every `drawsP` draw from index 2 on is 0.1. -/
lemma drawsP_small (i : ℕ) (h : 2 ≤ i) : drawsP i = ⟨1, 10⟩ := by
  unfold drawsP
  rw [if_neg]
  omega

/-- Paralysis causes no end-of-turn damage. -/
lemma apply_status_para (hp : ℤ) :
    apply_status_effects (some STATUS_PARALYSIS) hp = (hp, "") := by
  unfold apply_status_effects
  rw [if_neg (by decide), if_neg (by decide)]

/-- A paralyzed side facing a 0.1 draw skips its half-turn: nothing
changes except the log and the draw index. -/
lemma half_turn_locked (atk dfn : Combatant) (hp : ℤ) (i : ℕ)
    (hdi : drawsP i = ⟨1, 10⟩) :
    half_turn atk dfn (some STATUS_PARALYSIS) (some STATUS_PARALYSIS) hp drawsP i
      = some ⟨hp, some STATUS_PARALYSIS,
              [atk.name ++ " is paralyzed and can't move!"], i + 1⟩ := by
  have hblt : (⟨1, 10⟩ : Frac).blt ⟨1, 4⟩ = true := by decide
  simp only [half_turn, if_pos rfl, hdi, hblt, if_true]
  simp [after_attack, apply_status_para]

/-- In the mutually-paralyzed state, one round under `drawsP` changes
nothing but the turn counter, the log and the draw index. -/
lemma paraRound (s : BState) (hf : s.first_hp = 76) (hs : s.second_hp = 76)
    (h1 : s.first_status = some STATUS_PARALYSIS)
    (h2 : s.second_status = some STATUS_PARALYSIS) (hi : 2 ≤ s.idx) :
    ∃ s', roundStep pFastP pSlowP drawsP s = StepOut.next s' ∧
      s'.first_hp = 76 ∧ s'.second_hp = 76 ∧
      s'.first_status = some STATUS_PARALYSIS ∧
      s'.second_status = some STATUS_PARALYSIS ∧ 2 ≤ s'.idx := by
  have hd1 : drawsP s.idx = ⟨1, 10⟩ := drawsP_small s.idx hi
  have hd2 : drawsP (s.idx + 1) = ⟨1, 10⟩ := drawsP_small _ (by omega)
  simp only [roundStep, h1, h2, hs, hf,
    half_turn_locked pFastP pSlowP 76 s.idx hd1]
  rw [if_neg (by decide)]
  simp only [half_turn_locked pSlowP pFastP 76 (s.idx + 1) hd2]
  rw [if_neg (by decide)]
  exact ⟨_, rfl, rfl, rfl, rfl, rfl, by show 2 ≤ s.idx + 1 + 1; omega⟩

/-- From the mutually-paralyzed state the loop never exits under
`drawsP`, whatever the fuel. -/
lemma runB_paraLocked : ∀ (n : ℕ) (s : BState), s.first_hp = 76 →
    s.second_hp = 76 → s.first_status = some STATUS_PARALYSIS →
    s.second_status = some STATUS_PARALYSIS → 2 ≤ s.idx →
    runB pFastP pSlowP drawsP n s = RunOut.more := by
  intro n
  induction n with
  | zero => intro s _ _ _ _ _; rfl
  | succ m ih =>
    intro s hf hs h1 h2 hi
    obtain ⟨s', hstep, hf', hs', h1', h2', hi'⟩ := paraRound s hf hs h1 h2 hi
    simp only [runB]
    rw [if_pos (by rw [hf, hs]; constructor <;> decide), hstep]
    exact ih s' hf' hs' h1' h2' hi'

/-! ## Claims -/

/-- C1 counterexample: in the end-to-end scenario (hp 100, attack 100,
defense 100, power-50 normal move, normal-typed opponent) a hit does NOT
deal 14 damage — the formula `(((2*50/5+2)*50*100/100)/50+2)*1.0` equals
24, not `floor(14.4)`. -/
theorem C1_counterexample : calculate_damage pFast pSlow none ≠ some 14 := by
  decide

/-- C1 (amended): in the end-to-end scenario every successful hit deals
exactly 24 damage, the defending side's health drops below 0 on turn
`ceil(100/24) = 5`, and for every draw stream the loop ends on turn 5 with
the faster side (speed 100, acting first) as winner. -/
theorem C1_end_to_end :
    calculate_damage pFast pSlow none = some 24 ∧
    calculate_damage pSlow pFast none = some 24 ∧
    battle_first pFast pSlow = pFast ∧
    (∀ draws : ℕ → Frac,
      runB pFast pSlow draws 5 (initBState pFast pSlow) = RunOut.out c1final) ∧
    c1final.turn = 5 ∧ c1final.second_hp = -20 ∧ c1final.first_hp = 4 ∧
    battle_winner pFast pSlow c1final = pFast.name := by
  refine ⟨by decide, by decide, by decide, ?_,
    by decide, by decide, by decide, by decide⟩
  intro draws
  rw [runB_indep pFast pSlow draws dZero (by decide) (by decide) 5
    (initBState pFast pSlow) (by decide) (by decide)]
  decide

/-- C2 counterexample: with a defender whose defense stat is present and
zero, `calculate_damage` does not return a value — Python raises
`ZeroDivisionError` (modelled as `none`). -/
theorem C2_counterexample : calculate_damage pFast pNoDef none = none := by
  decide

/-- C2 (amended): for every attacker and defender whose (defaulted) defense
stat is nonzero, and any status, `calculate_damage` returns an integer ≥ 1;
the non-negative stat 0 for defense must be excluded. -/
theorem C2_damage_safe (attacker defender : Combatant) (status : Option String)
    (hdef : pyGet defender.base_stats "defense" 50 ≠ 0) :
    ∃ d, calculate_damage attacker defender status = some d ∧ 1 ≤ d :=
  calculate_damage_some attacker defender status hdef

/-- C2 witness: the amended claim at the concrete scenario combatants. -/
theorem C2_witness :
    pyGet pSlow.base_stats "defense" 50 ≠ 0 ∧
    ∃ d, calculate_damage pFast pSlow none = some d ∧ 1 ≤ d :=
  ⟨by decide, C2_damage_safe pFast pSlow none (by decide)⟩

/-- C3 counterexample: with two combatants whose moves can both inflict
paralysis and the draw stream `drawsP`, both sides are paralyzed after
round 1 and every skip roll succeeds afterwards, so the loop never exits:
termination fails for this pair and this sequence of draws. -/
theorem C3_counterexample :
    ¬ ∃ (fuel : ℕ) (r : BState),
        runB pFastP pSlowP drawsP fuel (initBState pFastP pSlowP)
          = RunOut.out r := by
  rintro ⟨fuel, r, h⟩
  cases fuel with
  | zero => cases h
  | succ m =>
    simp only [runB] at h
    rw [if_pos (by decide)] at h
    rw [show roundStep pFastP pSlowP drawsP (initBState pFastP pSlowP)
        = StepOut.next paraState from by decide] at h
    simp only at h
    rw [runB_paraLocked m paraState rfl rfl rfl rfl (by decide)] at h
    cases h

/-- C3 (amended): for every pair of resolved combatants whose (defaulted)
defense stats are nonzero and whose moves cannot BOTH inflict paralysis,
and every sequence of draws, the battle loop exits: some side's health
reaches 0 or below after finitely many rounds, because the side that can
never be paralyzed deals at least 1 damage every round. -/
theorem C3_termination (p1 p2 : Combatant) (draws : ℕ → Frac)
    (hd1 : pyGet p1.base_stats "defense" 50 ≠ 0)
    (hd2 : pyGet p2.base_stats "defense" 50 ≠ 0)
    (hpar : ¬ (canParalyze p1.move ∧ canParalyze p2.move)) :
    ∃ (fuel : ℕ) (r : BState),
      runB (battle_first p1 p2) (battle_second p1 p2) draws fuel
        (initBState p1 p2) = RunOut.out r := by
  by_cases hsp : pyGet p1.base_stats "speed" 50 ≥ pyGet p2.base_stats "speed" 50
  · rw [show battle_first p1 p2 = p1 from by unfold battle_first; rw [if_pos hsp],
      show battle_second p1 p2 = p2 from by unfold battle_second; rw [if_pos hsp]]
    exact runB_term_general p1 p2 draws hd1 hd2 (by tauto) _ rfl rfl
  · rw [show battle_first p1 p2 = p2 from by unfold battle_first; rw [if_neg hsp],
      show battle_second p1 p2 = p1 from by unfold battle_second; rw [if_neg hsp]]
    exact runB_term_general p2 p1 draws hd2 hd1 (by tauto) _ rfl rfl

/-- C3 witness: the amended claim at the concrete scenario combatants. -/
theorem C3_witness :
    pyGet pFast.base_stats "defense" 50 ≠ 0 ∧
    pyGet pSlow.base_stats "defense" 50 ≠ 0 ∧
    ¬ (canParalyze pFast.move ∧ canParalyze pSlow.move) ∧
    ∃ (fuel : ℕ) (r : BState),
      runB (battle_first pFast pSlow) (battle_second pFast pSlow) dZero fuel
        (initBState pFast pSlow) = RunOut.out r :=
  ⟨by decide, by decide, by decide,
    C3_termination pFast pSlow dZero (by decide) (by decide) (by decide)⟩

/-- C4: whenever the battle loop (started from the initial state of two
combatants whose starting health is positive) exits normally, exactly one
side has health ≤ 0 — the loop breaks before the other side could attack in
that round — and the declared winner is the side whose health is still
positive. -/
theorem C4_no_simultaneous_faint (p1 p2 : Combatant) (draws : ℕ → Frac)
    (fuel : ℕ) (r : BState)
    (h1 : 0 < pyGet p1.base_stats "hp" 100)
    (h2 : 0 < pyGet p2.base_stats "hp" 100)
    (hrun : runB (battle_first p1 p2) (battle_second p1 p2) draws fuel
      (initBState p1 p2) = RunOut.out r) :
    (r.second_hp ≤ 0 ∧ 0 < r.first_hp ∧
      battle_winner (battle_first p1 p2) (battle_second p1 p2) r
        = (battle_first p1 p2).name) ∨
    (r.first_hp ≤ 0 ∧ 0 < r.second_hp ∧
      battle_winner (battle_first p1 p2) (battle_second p1 p2) r
        = (battle_second p1 p2).name) := by
  have hi1 : 0 < (initBState p1 p2).first_hp := by
    simp only [initBState]
    split
    · exact_mod_cast h1
    · exact_mod_cast h2
  have hi2 : 0 < (initBState p1 p2).second_hp := by
    simp only [initBState]
    split
    · exact_mod_cast h2
    · exact_mod_cast h1
  rcases runB_out_faint (battle_first p1 p2) (battle_second p1 p2) draws fuel
      (initBState p1 p2) r hi1 hi2 hrun with ⟨ha, hb⟩ | ⟨ha, hb⟩
  · exact Or.inl ⟨ha, hb, by unfold battle_winner; rw [if_pos hb]⟩
  · exact Or.inr ⟨ha, hb, by unfold battle_winner; rw [if_neg (by omega)]⟩

/-- C4 witness: the end-to-end scenario battle exits with the second side
fainted and the first side (the winner) still at positive health. -/
theorem C4_witness :
    0 < pyGet pFast.base_stats "hp" 100 ∧
    0 < pyGet pSlow.base_stats "hp" 100 ∧
    runB (battle_first pFast pSlow) (battle_second pFast pSlow) dZero 5
      (initBState pFast pSlow) = RunOut.out c1final ∧
    ((c1final.second_hp ≤ 0 ∧ 0 < c1final.first_hp ∧
       battle_winner (battle_first pFast pSlow) (battle_second pFast pSlow)
         c1final = (battle_first pFast pSlow).name) ∨
     (c1final.first_hp ≤ 0 ∧ 0 < c1final.second_hp ∧
       battle_winner (battle_first pFast pSlow) (battle_second pFast pSlow)
         c1final = (battle_second pFast pSlow).name)) :=
  ⟨by decide, by decide, by decide,
    C4_no_simultaneous_faint pFast pSlow dZero 5 c1final
      (by decide) (by decide) (by decide)⟩

/-- C5: across one round of the battle loop (continuing or ending in a
faint), a side's status is an `Option` — at most one active status — a side
that already has a status keeps exactly that status, and statuses never
leave {none, paralysis, burn, poison}; hence a status, once set, never
changes for the rest of the battle. -/
theorem C5_status_invariant (f sd : Combatant) (draws : ℕ → Frac)
    (s s' : BState)
    (h : roundStep f sd draws s = StepOut.next s' ∨
         roundStep f sd draws s = StepOut.halt s') :
    ((∀ x, s.first_status = some x → s'.first_status = some x) ∧
     (∀ x, s.second_status = some x → s'.second_status = some x)) ∧
    ((s.first_status ∈ statusDomain → s'.first_status ∈ statusDomain) ∧
     (s.second_status ∈ statusDomain → s'.second_status ∈ statusDomain)) := by
  have domfact : ∀ (st st' : Option String),
      (st' ∈ statusDomain ∨ st' = st) → st ∈ statusDomain →
      st' ∈ statusDomain := by
    rintro st st' (hd | he) hst
    · exact hd
    · rw [he]; exact hst
  rcases h with hstep | hstep
  · obtain ⟨h1, h2, hh1, _, hh2, _, _, _, hfs, hss⟩ :=
      roundStep_next_parts f sd draws s s' hstep
    obtain ⟨_, hpres1, hdom1, _, _⟩ := half_turn_parts f sd s.first_status
      s.second_status s.second_hp draws s.idx h1 hh1
    obtain ⟨_, hpres2, hdom2, _, _⟩ := half_turn_parts sd f h1.d_status
      s.first_status s.first_hp draws h1.i h2 hh2
    refine ⟨⟨?_, ?_⟩, ?_, ?_⟩
    · intro x hx; rw [hfs]; exact hpres2 x hx
    · intro x hx; rw [hss]; exact hpres1 x hx
    · intro hmem; rw [hfs]; exact domfact _ _ hdom2 hmem
    · intro hmem; rw [hss]; exact domfact _ _ hdom1 hmem
  · rcases roundStep_halt_parts f sd draws s s' hstep with
      ⟨h1, hh1, _, hfe, _, hfst, hsst⟩ |
      ⟨h1, h2, hh1, _, hh2, _, _, _, hfst, hsst⟩
    · obtain ⟨_, hpres1, hdom1, _, _⟩ := half_turn_parts f sd s.first_status
        s.second_status s.second_hp draws s.idx h1 hh1
      refine ⟨⟨?_, ?_⟩, ?_, ?_⟩
      · intro x hx; rw [hfst]; exact hx
      · intro x hx; rw [hsst]; exact hpres1 x hx
      · intro hmem; rw [hfst]; exact hmem
      · intro hmem; rw [hsst]; exact domfact _ _ hdom1 hmem
    · obtain ⟨_, hpres1, hdom1, _, _⟩ := half_turn_parts f sd s.first_status
        s.second_status s.second_hp draws s.idx h1 hh1
      obtain ⟨_, hpres2, hdom2, _, _⟩ := half_turn_parts sd f h1.d_status
        s.first_status s.first_hp draws h1.i h2 hh2
      refine ⟨⟨?_, ?_⟩, ?_, ?_⟩
      · intro x hx; rw [hfst]; exact hpres2 x hx
      · intro x hx; rw [hsst]; exact hpres1 x hx
      · intro hmem; rw [hfst]; exact domfact _ _ hdom2 hmem
      · intro hmem; rw [hsst]; exact domfact _ _ hdom1 hmem

/-- C5 witness: a round in which the first side is burned: its burn status
is exactly preserved through the round and both statuses stay in the
domain. -/
theorem C5_witness :
    (roundStep pFast pSlow dZero ⟨100, 100, some STATUS_BURN, none, 1, [], 0⟩
        = StepOut.next ⟨72, 87, some STATUS_BURN, none, 2,
            ["Turn 1:", "a uses tackle and deals 13 damage!",
             "b uses tackle and deals 24 damage!",
             "a: Burn deals 4 damage. "], 0⟩ ∨
     roundStep pFast pSlow dZero ⟨100, 100, some STATUS_BURN, none, 1, [], 0⟩
        = StepOut.halt ⟨72, 87, some STATUS_BURN, none, 2,
            ["Turn 1:", "a uses tackle and deals 13 damage!",
             "b uses tackle and deals 24 damage!",
             "a: Burn deals 4 damage. "], 0⟩) ∧
    ((∀ x, (some STATUS_BURN : Option String) = some x →
        (some STATUS_BURN : Option String) = some x) ∧
     (∀ x, (none : Option String) = some x →
        (none : Option String) = some x)) ∧
    (((some STATUS_BURN : Option String) ∈ statusDomain →
        (some STATUS_BURN : Option String) ∈ statusDomain) ∧
     ((none : Option String) ∈ statusDomain →
        (none : Option String) ∈ statusDomain)) :=
  ⟨Or.inl (by decide),
    C5_status_invariant pFast pSlow dZero
      ⟨100, 100, some STATUS_BURN, none, 1, [], 0⟩
      ⟨72, 87, some STATUS_BURN, none, 2,
        ["Turn 1:", "a uses tackle and deals 13 damage!",
         "b uses tackle and deals 24 damage!",
         "a: Burn deals 4 damage. "], 0⟩
      (Or.inl (by decide))⟩

/-- C6: the type multiplier is the product over the defending types of the
table lookups with default 1.0 (unknown attacking types included), and the
water-versus-fire/flying example evaluates to 2.0. -/
theorem C6_multiplier (t : String) (L : List String) :
    get_type_multiplier t L = multiplier_spec t L ∧
    get_type_multiplier "water" ["fire", "flying"] = ⟨2, 1⟩ := by
  constructor
  · unfold multiplier_spec get_type_multiplier
    rw [List.prod_eq_foldl, List.foldl_map]
    rfl
  · decide

/-- C7 counterexample: when the second fetch yields no data, the error
object carries the fixed message "Could not fetch data for one or both
Pokémon." — it does not name the failed Pokémon (here "b"). -/
theorem C7_counterexample :
    simulate_battle_core (some pFast) none dZero 1
        = SimOut.errDict "Could not fetch data for one or both Pokémon." ∧
    simulate_battle_core (some pFast) none dZero 1
        ≠ SimOut.errDict "Could not fetch data for b." :=
  ⟨by decide, by decide⟩

/-- C7 (amended): when either fetch yields no data, `simulate_battle`
returns the error object with the fixed message "Could not fetch data for
one or both Pokémon." (not naming the failed Pokémon), independently of
the draws and the fuel — in particular no damage is ever calculated. -/
theorem C7_missing_fetch (p1 p2 : Option Combatant) (draws : ℕ → Frac)
    (fuel : ℕ) :
    simulate_battle_core p1 none draws fuel
      = SimOut.errDict "Could not fetch data for one or both Pokémon." ∧
    simulate_battle_core none p2 draws fuel
      = SimOut.errDict "Could not fetch data for one or both Pokémon." := by
  constructor
  · cases p1 <;> rfl
  · cases p2 <;> rfl

/-- C8 counterexample: a transport error during `simulate_battle`'s first
fetch propagates past the tool boundary (the function body has no
`try`/`except`), instead of being returned as an error object. -/
theorem C8_counterexample :
    simulate_battle_top (GetStep.exc "ConnectError", GetStep.exc "unused")
        (GetStep.exc "unused", GetStep.exc "unused") dZero 1
      = TopOut.raised "ConnectError" := by
  decide

/-- C8 (amended): `get_pokemon_info` returns a structured result for a
successful body and an `{error: ...}` object for the two httpx error
classes it catches; `simulate_battle` returns the structured `{error}`
object when a fetch completes but resolves no data (e.g. HTTP 404).  A
transport exception in `simulate_battle`'s fetches, however, escapes. -/
theorem C8_error_handling :
    (∀ e, get_pokemon_info (Except.error (InfoExc.httpStatusError e))
        = Except.ok [("error", PyVal.str ("HTTP error: " ++ e))]) ∧
    (∀ e, get_pokemon_info (Except.error (InfoExc.requestError e))
        = Except.ok [("error", PyVal.str ("Request error: " ++ e))]) ∧
    (∀ d, get_pokemon_info (Except.ok d) = Except.ok d) ∧
    (∀ (pj : PokeJson) (mg : GetStep MoveJson)
        (g2 : GetStep PokeJson × GetStep MoveJson) (p2 : Option Combatant)
        (draws : ℕ → Frac) (fuel : ℕ),
      fetch_pokemon_full_data g2.1 g2.2 = Except.ok p2 →
      simulate_battle_top (GetStep.resp 404 pj, mg) g2 draws fuel
        = TopOut.returned
            (SimOut.errDict "Could not fetch data for one or both Pokémon.")) := by
  refine ⟨fun e => rfl, fun e => rfl, fun d => rfl, ?_⟩
  intro pj mg g2 p2 draws fuel h
  simp only [simulate_battle_top]
  rw [show fetch_pokemon_full_data (GetStep.resp 404 pj) mg
      = Except.ok none from rfl]
  rw [h]
  cases p2 <;> rfl

/-- C8 witness: the amended claim at a concrete 404 fetch. -/
theorem C8_witness :
    fetch_pokemon_full_data (GetStep.resp 404 pjDummy) (GetStep.exc "x")
        = Except.ok none ∧
    simulate_battle_top (GetStep.resp 404 pjDummy, GetStep.exc "x")
        (GetStep.resp 404 pjDummy, GetStep.exc "x") dZero 1
      = TopOut.returned
          (SimOut.errDict "Could not fetch data for one or both Pokémon.") :=
  ⟨rfl,
    C8_error_handling.2.2.2 pjDummy (GetStep.exc "x")
      (GetStep.resp 404 pjDummy, GetStep.exc "x") none dZero 1 rfl⟩

/-- C9 counterexample: in a successful battle the result dict has exactly
the keys pokemon1, pokemon2, battle_log, winner — there is no
`initial_hp` entry, contrary to the claimed interface. -/
theorem C9_counterexample :
    simulate_battle_core (some pFast) (some pSlow) dZero 5
        = SimOut.okDict c9dict ∧
    "initial_hp" ∉ c9dict.map Prod.fst :=
  ⟨by decide, by decide⟩

/-- C9 (amended): every successful `simulate_battle` result contains both
combatants' identities, the full ordered battle log, and the winner's name
— and nothing else; in particular no `initial_hp` mapping. -/
theorem C9_result_shape (p1 p2 : Combatant) (draws : ℕ → Frac) (fuel : ℕ)
    (d : List (String × PyVal))
    (h : simulate_battle_core (some p1) (some p2) draws fuel
        = SimOut.okDict d) :
    ∃ log winner,
      d = [("pokemon1", PyVal.str p1.name), ("pokemon2", PyVal.str p2.name),
           ("battle_log", PyVal.strList log), ("winner", PyVal.str winner)] ∧
      d.map Prod.fst = ["pokemon1", "pokemon2", "battle_log", "winner"] := by
  simp only [simulate_battle_core] at h
  cases hr : runB (battle_first p1 p2) (battle_second p1 p2) draws fuel
      (initBState p1 p2) with
  | crash => rw [hr] at h; simp at h
  | more => rw [hr] at h; simp at h
  | out r =>
    rw [hr] at h
    simp only at h
    injection h with h
    subst h
    exact ⟨_, _, rfl, by simp⟩

/-- C9 witness: the amended claim at the end-to-end scenario battle. -/
theorem C9_witness :
    simulate_battle_core (some pFast) (some pSlow) dZero 5
        = SimOut.okDict c9dict ∧
    ∃ log winner,
      c9dict = [("pokemon1", PyVal.str pFast.name),
                ("pokemon2", PyVal.str pSlow.name),
                ("battle_log", PyVal.strList log),
                ("winner", PyVal.str winner)] ∧
      c9dict.map Prod.fst = ["pokemon1", "pokemon2", "battle_log", "winner"] :=
  ⟨by decide, C9_result_shape pFast pSlow dZero 5 c9dict (by decide)⟩

/-- C10: a Pokémon record that resolves (HTTP 200) but has an empty move
list, or whose first-move detail fetch returns a non-200 status, makes
`fetch_pokemon_full_data` return `None`; `simulate_battle` then returns
the fetch-failure error object. -/
theorem C10_fetch_none (pokeJson : PokeJson) (moveGet : GetStep MoveJson) :
    (pokeJson.moves = [] →
      fetch_pokemon_full_data (GetStep.resp 200 pokeJson) moveGet
        = Except.ok none) ∧
    (∀ (mstatus : ℕ) (moveJson : MoveJson), mstatus ≠ 200 →
      fetch_pokemon_full_data (GetStep.resp 200 pokeJson)
          (GetStep.resp mstatus moveJson)
        = Except.ok none) ∧
    (∀ (g2 : GetStep PokeJson × GetStep MoveJson) (p2 : Option Combatant)
        (draws : ℕ → Frac) (fuel : ℕ),
      fetch_pokemon_full_data (GetStep.resp 200 pokeJson) moveGet
        = Except.ok none →
      fetch_pokemon_full_data g2.1 g2.2 = Except.ok p2 →
      simulate_battle_top (GetStep.resp 200 pokeJson, moveGet) g2 draws fuel
        = TopOut.returned
            (SimOut.errDict "Could not fetch data for one or both Pokémon.")) := by
  refine ⟨?_, ?_, ?_⟩
  · intro hmv
    simp only [fetch_pokemon_full_data]
    rw [if_neg (show ¬ (200 : ℕ) ≠ 200 from by decide), if_pos hmv]
  · intro mstatus moveJson hms
    simp only [fetch_pokemon_full_data]
    rw [if_neg (show ¬ (200 : ℕ) ≠ 200 from by decide)]
    by_cases hmv : pokeJson.moves = []
    · rw [if_pos hmv]
    · rw [if_neg hmv, if_pos hms]
  · intro g2 p2 draws fuel h1 h2
    simp only [simulate_battle_top]
    rw [h1, h2]
    cases p2 <;> rfl

/-- C10 witness: a 200 record with no moves short-circuits the battle. -/
theorem C10_witness :
    pjNoMoves.moves = [] ∧
    fetch_pokemon_full_data (GetStep.resp 200 pjNoMoves) (GetStep.exc "unused")
        = Except.ok none ∧
    simulate_battle_top (GetStep.resp 200 pjNoMoves, GetStep.exc "unused")
        (GetStep.resp 404 pjDummy, GetStep.exc "x") dZero 1
      = TopOut.returned
          (SimOut.errDict "Could not fetch data for one or both Pokémon.") :=
  ⟨rfl, (C10_fetch_none pjNoMoves (GetStep.exc "unused")).1 rfl,
    (C10_fetch_none pjNoMoves (GetStep.exc "unused")).2.2
      (GetStep.resp 404 pjDummy, GetStep.exc "x") none dZero 1
      ((C10_fetch_none pjNoMoves (GetStep.exc "unused")).1 rfl) rfl⟩
